import Mathlib

/-!
A shallow embedding of `src/autofill/driver.py` (the `AutofillDriver` class of
the mpc-fill repository): the order-fulfilment workflow state machine, and the
sequential upload/insert sequencer that consumes each face of the card order.

The remote browser session is modelled observationally: every method of
`AutofillDriver` is translated to a pure function that threads the driver
state explicitly and returns the list of observable events (remote-session
commands, status-bar updates, queue pops, sleeps) it emits, in order.
Unbounded polling loops are driven by explicit oracles describing the
responses of the remote session; exhausting an oracle models a run in which
the loop has not yet exited (the real loop would still be spinning), and is
reported as a `blocked` outcome.
-/

namespace Autofill

/-- Modelled from the spec: the Workflow State enum (`States` in the missing
`constants.py`), with the total order given in the data model:
Initialising, DefiningOrder, PagingToFronts, InsertingFronts, PagingToBacks,
InsertingBacks, PagingToReview. -/
inductive States where
  | initialising
  | defining_order
  | paging_to_fronts
  | inserting_fronts
  | paging_to_backs
  | inserting_backs
  | paging_to_review
deriving DecidableEq, Repr

/-- Position of a state in the total order of `States`. -/
def States.idx : States → Nat
  | .initialising => 0
  | .defining_order => 1
  | .paging_to_fronts => 2
  | .inserting_fronts => 3
  | .paging_to_backs => 4
  | .inserting_backs => 5
  | .paging_to_review => 6

/-- Modelled from the spec: `InvalidStateException` (in the missing
`utils.py`), constructed in `assert_state` as
`InvalidStateException(expected_state, self.state)`. -/
structure InvalidStateException where
  expected : States
  actual : States
deriving DecidableEq, Repr

/-- Modelled from the spec: the fields of `CardImage` (in the missing
`order.py`) that `driver.py` reads: `name`, `file_path`, `slots`,
`downloaded`, and the result of the `file_exists()` call made at upload
time, captured here as the field `file_exists`. -/
structure CardImage where
  name : String
  file_path : String
  slots : List Nat
  downloaded : Bool
  file_exists : Bool
deriving DecidableEq, Repr

/-- Modelled from the spec: the fields of `CardImageCollection` (in the
missing `order.py`) that `driver.py` reads: the fixed card list `cards`
and the delivery queue `queue`, modelled as the sequence of descriptors
the queue will deliver, in delivery order. -/
structure CardImageCollection where
  cards : List CardImage
  queue : List CardImage
deriving DecidableEq, Repr

/-- Modelled from the spec: the fields of the order `details` object read by
`driver.py`: `stock`, `quantity`, `bracket`, `foil`. -/
structure OrderDetails where
  stock : String
  quantity : Nat
  bracket : Nat
  foil : Bool
deriving DecidableEq, Repr

/-- Modelled from the spec: the fields of `CardOrder` (in the missing
`order.py`) read by `driver.py`: `details`, `fronts`, `backs`. -/
structure CardOrder where
  details : OrderDetails
  fronts : CardImageCollection
  backs : CardImageCollection
deriving DecidableEq, Repr

/-- The mutable fields of `AutofillDriver` that the workflow logic touches:
`state` and `action` (the progress bars and the selenium handle are
observational, captured in the event trace). -/
structure AutofillDriver where
  state : States
  action : String
deriving DecidableEq, Repr

/-- The JavaScript commands `driver.py` issues through `execute_javascript`,
one constructor per call site. -/
inductive JsCommand where
  /-- `doPersonalize(https://www.makeplayingcards.com/products/pro_item_process_flow.aspx);` -/
  | doPersonalize
  /-- `document.getElementById(txt_card_number).value=<quantity>;` -/
  | setCardNumber (quantity : Nat)
  /-- `setMode(ImageText, 0);` issued by `different_images` -/
  | setModeDifferent
  /-- `setMode(ImageText, 1);` issued by `same_images` -/
  | setModeSame
  /-- `oDesign.setNextStep();` issued by `next_step` -/
  | setNextStep
  /-- `l = PageLayout.prototype` issued at the top of `insert_image` -/
  | pageLayoutPrototype
  /-- `l.applyDragPhoto(l.getElement3(dnImg, <slot>), 0, <pid>)` -/
  | applyDragPhoto (slot : Nat) (pid : String)
deriving DecidableEq, Repr

/-- Observable events emitted by the driver, in program order. -/
inductive Event where
  /-- a call to `set_state`: assigns `self.state` and `self.action` -/
  | setState (s : States) (action : String)
  /-- `stock_dropdown.select_by_visible_text(...)` in `define_order` -/
  | selectStock (stock : String)
  /-- `qty_dropdown.select_by_value(str(bracket))` in `define_order` -/
  | selectBracket (bracket : Nat)
  /-- `foil_dropdown.select_by_value(EF_055)` in `define_order` -/
  | selectFoil
  /-- `execute_javascript` with the given command -/
  | js (c : JsCommand)
  /-- `switch_to_frame(name)` -/
  | switchFrame (name : String)
  /-- `driver.switch_to.default_content()` -/
  | switchDefault
  /-- a call to `self.wait()` returning (loading circle gone or absent) -/
  | waited
  /-- `driver.find_element_by_id(closeBtn).click()` in `page_to_backs` -/
  | clickCloseBtn
  /-- `images.queue.get()`: one blocking pop from the delivery queue -/
  | popQueue (name : String)
  /-- `self.upload_bar.update()`: the uploaded progress counter advances -/
  | uploadBarUpdate
  /-- counting the `upload_` elements before submission in `upload_image` -/
  | findUploadElems (n : Nat)
  /-- `time.sleep(secs)` -/
  | sleep (secs : Nat)
  /-- `send_keys(image.file_path)` on the upload input: one file submission -/
  | submitUpload (path : String)
  /-- one check of the `upload_` element list inside the polling loop,
  observing `n` elements -/
  | pollUploads (n : Nat)
  /-- an unsolicited dialog was raised during polling and accepted -/
  | alertAccepted
  /-- an unsolicited dialog was raised but vanished before `accept()` -/
  | alertAbsent
deriving DecidableEq, Repr

/-- `set_state(self, state, action="")`: assigns both fields and refreshes
the status bar (the refresh is the emitted event). -/
def set_state (d : AutofillDriver) (s : States) (action : String := "") :
    AutofillDriver × Event :=
  ({ d with state := s, action := action }, Event.setState s action)

/-- `assert_state`: raise `InvalidStateException(expected_state, self.state)`
when the current state differs from the expected one. -/
def assert_state (d : AutofillDriver) (expected : States) :
    Except InvalidStateException Unit :=
  if d.state ≠ expected then
    Except.error ⟨expected, d.state⟩
  else
    Except.ok ()

/-- Outcome of running a driver method: normal return with the updated
driver, an `InvalidStateException` (the driver is left as it was when the
exception was raised), or a loop oracle exhausted while a polling loop or a
queue pop was still waiting (the real program would still be blocked). -/
inductive RunResult where
  | ok (d : AutofillDriver)
  | err (e : InvalidStateException) (d : AutofillDriver)
  | blocked
deriving DecidableEq, Repr

/-- Outcome of one `WebDriverWait(...).until(invisibility_of_element(...))`
call inside `AutofillDriver.wait`: either it times out after 100 seconds
(`TimeoutException`) or the loading circle becomes invisible. -/
inductive WaitOutcome where
  | timeout
  | cleared
deriving DecidableEq, Repr

/-- The retry loop inside `AutofillDriver.wait`: on `TimeoutException` the
`until` call is retried (`continue`); once the element is invisible the loop
breaks. `none` models an oracle exhausted while the loop is still retrying. -/
def waitRetry : List WaitOutcome → Option Unit
  | [] => none
  | WaitOutcome.timeout :: rest => waitRetry rest
  | WaitOutcome.cleared :: _ => some ()

/-- `AutofillDriver.wait`: if the `sysdiv_wait` element is absent
(`NoSuchElementException`), return immediately; otherwise run the retry
loop until the element becomes invisible. -/
def wait (elemPresent : Bool) (outcomes : List WaitOutcome) : Option Unit :=
  if elemPresent then waitRetry outcomes else some ()

/-- Outcome of one iteration of the final polling loop of `upload_image`:
either `find_elements_by_xpath` returns `n` elements whose last entry has
the given `pid` attribute, or an `UnexpectedAlertPresentException` is raised
(in which case `present` says whether the alert is still there when the
handler calls `accept()`, else `NoAlertPresentException` is swallowed). -/
inductive PollOutcome where
  | elems (n : Nat) (lastPid : String)
  | alert (present : Bool)
deriving DecidableEq, Repr

/-- Whether a poll outcome is an unsolicited-dialog event. -/
def PollOutcome.isAlert : PollOutcome → Bool
  | .alert _ => true
  | _ => false

/-- The `while True` polling loop at the end of `upload_image`: count the
`upload_` elements; when the count exceeds the count recorded before
submission, return the last entry. On an unsolicited dialog, accept it and
resume polling. Returns the pid (or `none` if the oracle was exhausted with
the loop still polling) and the trace of observations. -/
def pollUploads (numElems : Nat) : List PollOutcome → Option String × List Event
  | [] => (none, [])
  | PollOutcome.elems n pid :: rest =>
      if numElems < n then
        (some pid, [Event.pollUploads n])
      else
        let (r, tr) := pollUploads numElems rest
        (r, Event.pollUploads n :: Event.sleep 2 :: tr)
  | PollOutcome.alert present :: rest =>
      let (r, tr) := pollUploads numElems rest
      (r, (if present then Event.alertAccepted else Event.alertAbsent) :: tr)

/-- Oracle for one call to `upload_image`: the number of `upload_` elements
observed before submission, the number of iterations of the busy-wait loop
(each a 3 second sleep while `divFileProgressContainer` is displayed), the
number of extra submit-loop iterations (the loop body runs at least once
because the busy-wait loop exits exactly when the display property is
`none`, which is the submit loop entry condition), and the poll oracle. -/
structure UploadEnv where
  numElems : Nat
  busyIters : Nat
  submitIters : Nat
  poll : List PollOutcome
deriving DecidableEq, Repr

/-- The submit loop of `upload_image`: while the progress container is not
shown, `send_keys(image.file_path)` then sleep 1 second and re-check; the
body runs `iters + 1` times. -/
def submitPhase (path : String) (iters : Nat) : List Event :=
  List.flatten (List.replicate (iters + 1) [Event.submitUpload path, Event.sleep 1])

/-- `upload_image`: if the local file exists, set the action to
`Uploading <name>`, record the current count of `upload_` elements, wait
while an upload is already in progress, submit the file until the progress
bar appears, then poll until the element count grows past the recorded
count and return the new pid. If the file does not exist, do nothing
(`pass`) and fall through to `set_state(self.state)`, returning `None`.
Returns `none` for the pid exactly when the Python function returns `None`
or is still blocked in its polling loop (`blocked` is signalled by the
caller when the poll oracle is exhausted, see `upload_and_insert_image`). -/
def upload_image (d : AutofillDriver) (image : CardImage) (env : UploadEnv) :
    Option (Option String) × AutofillDriver × List Event :=
  if image.file_exists then
    let (d1, e1) := set_state d d.state ("Uploading " ++ image.name)
    let (pid, ptr) := pollUploads env.numElems env.poll
    (pid.map some, d1,
      e1 :: Event.findUploadElems env.numElems
        :: (List.replicate env.busyIters (Event.sleep 3)
            ++ submitPhase image.file_path env.submitIters ++ ptr))
  else
    let (d1, e1) := set_state d d.state
    (some none, d1, [e1])

/-- `insert_image`: when `pid` is truthy, set the action to
`Inserting <name>`, bind `l = PageLayout.prototype`, then for each slot
issue the `applyDragPhoto` command followed by `self.wait()`, and finally
reset the action. A falsy pid (None or the empty string) does nothing. -/
def insert_image (d : AutofillDriver) (pid : Option String) (image : CardImage) :
    AutofillDriver × List Event :=
  match pid with
  | none => (d, [])
  | some p =>
      if p = "" then (d, [])
      else
        let (d1, e1) := set_state d d.state ("Inserting " ++ image.name)
        let (d2, e2) := set_state d1 d1.state
        (d2, e1 :: Event.js JsCommand.pageLayoutPrototype
            :: (image.slots.flatMap (fun slot =>
                  [Event.js (JsCommand.applyDragPhoto slot p), Event.waited])
                ++ [e2]))

/-- `upload_and_insert_image`: upload, then insert under the returned pid.
`blocked` models the upload polling loop never observing new elements. -/
def upload_and_insert_image (d : AutofillDriver) (image : CardImage)
    (env : UploadEnv) : RunResult × List Event :=
  match upload_image d image env with
  | (none, _, tr) => (RunResult.blocked, tr)
  | (some pid, d1, tr) =>
      let (d2, tr2) := insert_image d1 pid image
      (RunResult.ok d2, tr ++ tr2)

/-- The loop body of `upload_and_insert_images`, recursing on the remaining
iteration count `k` (the Python loop runs `len(images.cards)` times) and the
remaining delivery queue. Each iteration pops one descriptor (blocking
forever, modelled as `blocked`, if the queue never delivers another entry),
runs `upload_and_insert_image` when the descriptor was downloaded, and
advances the upload progress bar. `env i` is the upload oracle for
iteration `i`. -/
def sequencerLoop (env : Nat → UploadEnv) :
    AutofillDriver → Nat → Nat → List CardImage → RunResult × List Event
  | d, _, 0, _ => (RunResult.ok d, [])
  | _, _, _ + 1, [] => (RunResult.blocked, [])
  | d, i, k + 1, image :: rest =>
      if image.downloaded then
        match upload_and_insert_image d image (env i) with
        | (RunResult.ok d1, tr) =>
            let (r, tr2) := sequencerLoop env d1 (i + 1) k rest
            (r, Event.popQueue image.name :: (tr ++ Event.uploadBarUpdate :: tr2))
        | (r, tr) => (r, Event.popQueue image.name :: tr)
      else
        let (r, tr2) := sequencerLoop env d (i + 1) k rest
        (r, Event.popQueue image.name :: Event.uploadBarUpdate :: tr2)

/-- `upload_and_insert_images`: pop exactly `len(images.cards)` entries from
the delivery queue, uploading and inserting each downloaded descriptor and
advancing the progress bar once per descriptor. -/
def upload_and_insert_images (d : AutofillDriver) (images : CardImageCollection)
    (env : Nat → UploadEnv) : RunResult × List Event :=
  sequencerLoop env d 0 images.cards.length images.queue

/-- `define_order`: assert the `defining_order` state, select the card
stock, the card quantity bracket, the foil finish when ordered, and
transition to `paging_to_fronts`. -/
def define_order (d : AutofillDriver) (order : CardOrder) :
    RunResult × List Event :=
  match assert_state d States.defining_order with
  | Except.error e => (RunResult.err e d, [])
  | Except.ok _ =>
      let evts := Event.selectStock order.details.stock
          :: Event.selectBracket order.details.bracket
          :: (if order.details.foil then [Event.selectFoil] else [])
      let (d1, e1) := set_state d States.paging_to_fronts
      (RunResult.ok d1, evts ++ [e1])

/-- `page_to_fronts`: assert the `paging_to_fronts` state, accept the
current settings (`doPersonalize`), switch to the login frame, set the
desired number of cards, select different images for every slot, switch
back to the default content, and transition to `inserting_fronts`. -/
def page_to_fronts (d : AutofillDriver) (order : CardOrder) :
    RunResult × List Event :=
  match assert_state d States.paging_to_fronts with
  | Except.error e => (RunResult.err e d, [])
  | Except.ok _ =>
      let (d1, e1) := set_state d States.inserting_fronts
      (RunResult.ok d1,
        [Event.js JsCommand.doPersonalize,
         Event.switchFrame "sysifm_loginFrame",
         Event.js (JsCommand.setCardNumber order.details.quantity),
         Event.js JsCommand.setModeDifferent,
         Event.switchDefault, e1])

/-- `next_step`: `self.wait()` then issue `oDesign.setNextStep();`. -/
def next_step : List Event :=
  [Event.waited, Event.js JsCommand.setNextStep]

/-- `page_to_backs`: assert the `paging_to_backs` state, page through to the
next step twice (dismissing the interstitial close button when present),
switch to the login frame, select the same image for every slot when the
backs collection has exactly one card and different images otherwise,
switch back, and transition to `inserting_backs`. `closeBtnPresent` is the
oracle for the `find_element_by_id(closeBtn)` lookup. -/
def page_to_backs (d : AutofillDriver) (order : CardOrder)
    (closeBtnPresent : Bool) : RunResult × List Event :=
  match assert_state d States.paging_to_backs with
  | Except.error e => (RunResult.err e d, [])
  | Except.ok _ =>
      let (d1, e1) := set_state d States.inserting_backs
      (RunResult.ok d1,
        next_step ++ [Event.waited]
          ++ (if closeBtnPresent then [Event.clickCloseBtn] else [])
          ++ next_step
          ++ [Event.switchFrame "sysifm_loginFrame",
              Event.js (if order.backs.cards.length = 1 then
                          JsCommand.setModeSame
                        else JsCommand.setModeDifferent),
              Event.switchDefault, e1])

/-- `insert_fronts`: page to the fronts, assert the `inserting_fronts`
state, upload and insert every front image, and transition to
`paging_to_backs`. -/
def insert_fronts (d : AutofillDriver) (order : CardOrder)
    (env : Nat → UploadEnv) : RunResult × List Event :=
  match page_to_fronts d order with
  | (RunResult.ok d1, tr1) =>
      match assert_state d1 States.inserting_fronts with
      | Except.error e => (RunResult.err e d1, tr1)
      | Except.ok _ =>
          match upload_and_insert_images d1 order.fronts env with
          | (RunResult.ok d2, tr2) =>
              let (d3, e3) := set_state d2 States.paging_to_backs
              (RunResult.ok d3, tr1 ++ tr2 ++ [e3])
          | (r, tr2) => (r, tr1 ++ tr2)
  | (r, tr1) => (r, tr1)

/-- `insert_backs`: page to the backs, assert the `inserting_backs` state,
upload and insert every back image, and transition to `paging_to_review`. -/
def insert_backs (d : AutofillDriver) (order : CardOrder)
    (env : Nat → UploadEnv) (closeBtnPresent : Bool) : RunResult × List Event :=
  match page_to_backs d order closeBtnPresent with
  | (RunResult.ok d1, tr1) =>
      match assert_state d1 States.inserting_backs with
      | Except.error e => (RunResult.err e d1, tr1)
      | Except.ok _ =>
          match upload_and_insert_images d1 order.backs env with
          | (RunResult.ok d2, tr2) =>
              let (d3, e3) := set_state d2 States.paging_to_review
              (RunResult.ok d3, tr1 ++ tr2 ++ [e3])
          | (r, tr2) => (r, tr1 ++ tr2)
  | (r, tr1) => (r, tr1)

/-- The driver as constructed by `attrs`: `state` defaults to
`States.initialising` and `action` to the empty string. -/
def initialDriver : AutofillDriver :=
  { state := States.initialising, action := "" }

/-- `__attrs_post_init__`: after configuring the progress bars and loading
the starting url, transition to `defining_order`. -/
def attrs_post_init (d : AutofillDriver) : AutofillDriver × Event :=
  set_state d States.defining_order

/-- The ordering workflow of `execute`, after the download pipeline has been
started: `define_order`, `insert_fronts`, `insert_backs`, run on a freshly
initialised driver. -/
def runWorkflow (order : CardOrder) (envF envB : Nat → UploadEnv)
    (closeBtnPresent : Bool) : RunResult × List Event :=
  let (d0, e0) := attrs_post_init initialDriver
  match define_order d0 order with
  | (RunResult.ok d1, t1) =>
      match insert_fronts d1 order envF with
      | (RunResult.ok d2, t2) =>
          match insert_backs d2 order envB closeBtnPresent with
          | (r, t3) => (r, e0 :: (t1 ++ t2 ++ t3))
      | (r, t2) => (r, e0 :: (t1 ++ t2))
  | (r, t1) => (r, e0 :: t1)

/-- Python truthiness of the value returned by `upload_image` as tested by
`if pid:` in `insert_image`: `None` and the empty string are falsy. -/
def truthy : Option String → Bool
  | none => false
  | some s => !(s == "")

/-- Whether an event is one of the two `setMode` page-configuration
commands (same image for every slot / different image per slot). -/
def Event.isModeSelect : Event → Bool
  | .js JsCommand.setModeSame => true
  | .js JsCommand.setModeDifferent => true
  | _ => false

/-- Whether an event is a file submission on the upload input. -/
def Event.isSubmit : Event → Bool
  | .submitUpload _ => true
  | _ => false

/-- Whether an event is a slot-placement command (`applyDragPhoto`). -/
def Event.isPlacement : Event → Bool
  | .js (JsCommand.applyDragPhoto _ _) => true
  | _ => false

/-- Whether an event is a completed `self.wait()` call. -/
def Event.isWaited : Event → Bool
  | .waited => true
  | _ => false

/-- Whether an event is a blocking pop from the delivery queue. -/
def Event.isPop : Event → Bool
  | .popQueue _ => true
  | _ => false

/-- Whether an event is an advance of the uploaded progress counter. -/
def Event.isBarUpdate : Event → Bool
  | .uploadBarUpdate => true
  | _ => false

/-- Whether an event can be emitted by the polling loop of `upload_image`
(`pollUploads`): an element-count check, the 2 second sleep between checks,
or the handling of an unsolicited dialog. -/
def Event.isPollEvent : Event → Bool
  | .pollUploads _ => true
  | .sleep 2 => true
  | .alertAccepted => true
  | .alertAbsent => true
  | _ => false

/-- Whether an event can be emitted by `upload_and_insert_image` for a
single descriptor (everything the upload and insert steps do, which in
particular excludes queue pops, progress-bar advances and `setMode`
commands). -/
def Event.fromUploadInsert : Event → Bool
  | .setState _ _ => true
  | .findUploadElems _ => true
  | .sleep _ => true
  | .submitUpload _ => true
  | .pollUploads _ => true
  | .alertAccepted => true
  | .alertAbsent => true
  | .js JsCommand.pageLayoutPrototype => true
  | .js (JsCommand.applyDragPhoto _ _) => true
  | .waited => true
  | _ => false

/-- The sequence of values assigned to `self.state` by the `set_state`
calls recorded in a trace, in order. -/
def assignedStates (tr : List Event) : List States :=
  tr.filterMap (fun e => match e with
    | Event.setState s _ => some s
    | _ => none)

/-- The events `page_to_backs` emits when its state assertion passes, as a
function of the order and the close-button oracle. -/
def backsPagingEvents (order : CardOrder) (closeBtnPresent : Bool) :
    List Event :=
  next_step ++ [Event.waited]
    ++ (if closeBtnPresent then [Event.clickCloseBtn] else [])
    ++ next_step
    ++ [Event.switchFrame "sysifm_loginFrame",
        Event.js (if order.backs.cards.length = 1 then JsCommand.setModeSame
                  else JsCommand.setModeDifferent),
        Event.switchDefault, Event.setState States.inserting_backs ""]

/-- The pid the polling loop of `upload_image` returns: the last element of
the first observed element list whose length exceeds the count recorded
before submission (alerts are transparent). -/
def firstNewPid (numElems : Nat) : List PollOutcome → Option String
  | [] => none
  | PollOutcome.elems n pid :: rest =>
      if numElems < n then some pid else firstNewPid numElems rest
  | PollOutcome.alert _ :: rest => firstNewPid numElems rest

/-! Helper lemmas about the polling loops and the traces of single
descriptors. -/

theorem waitRetry_absorbs_timeouts (m : Nat) (rest : List WaitOutcome) :
    waitRetry (List.replicate m WaitOutcome.timeout ++ rest) = waitRetry rest := by
  induction m with
  | zero => rfl
  | succ n ih => simpa [List.replicate_succ, waitRetry] using ih

theorem pollUploads_fst_filter_alerts (k : Nat) (outs : List PollOutcome) :
    (pollUploads k outs).1
      = (pollUploads k (outs.filter (fun o => !o.isAlert))).1 := by
  induction outs with
  | nil => rfl
  | cons o rest ih =>
      cases o with
      | elems n pid =>
          by_cases h : k < n <;>
            simp [pollUploads, PollOutcome.isAlert, h, ih]
      | alert present =>
          simp [pollUploads, PollOutcome.isAlert, ih]

theorem pollUploads_fst_eq_firstNewPid (k : Nat) (outs : List PollOutcome) :
    (pollUploads k outs).1 = firstNewPid k outs := by
  induction outs with
  | nil => rfl
  | cons o rest ih =>
      cases o with
      | elems n pid =>
          by_cases h : k < n <;> simp [pollUploads, firstNewPid, h, ih]
      | alert present => simp [pollUploads, firstNewPid, ih]

theorem pollUploads_trace_events (k : Nat) (outs : List PollOutcome) :
    ∀ e ∈ (pollUploads k outs).2, e.isPollEvent = true := by
  induction outs with
  | nil => intro e he; simp [pollUploads] at he
  | cons o rest ih =>
      intro e he
      cases o with
      | elems n pid =>
          by_cases h : k < n
          · simp [pollUploads, h] at he
            simp [he, Event.isPollEvent]
          · simp [pollUploads, h] at he
            rcases he with he | he | he
            · simp [he, Event.isPollEvent]
            · simp [he, Event.isPollEvent]
            · exact ih e he
      | alert present =>
          rcases present <;> simp [pollUploads] at he <;>
            rcases he with he | he
          · simp [he, Event.isPollEvent]
          · exact ih e he
          · simp [he, Event.isPollEvent]
          · exact ih e he

theorem submitPhase_events (p : String) (iters : Nat) :
    ∀ e ∈ submitPhase p iters,
      e = Event.submitUpload p ∨ e = Event.sleep 1 := by
  intro e he
  simp only [submitPhase, List.mem_flatten, List.mem_replicate] at he
  rcases he with ⟨l, ⟨-, rfl⟩, hel⟩
  simpa using hel

theorem isPollEvent_fromUploadInsert (e : Event) (h : e.isPollEvent = true) :
    e.fromUploadInsert = true := by
  cases e <;> simp_all [Event.isPollEvent, Event.fromUploadInsert]

theorem upload_image_pos (d : AutofillDriver) (image : CardImage)
    (env : UploadEnv) (hf : image.file_exists = true) :
    upload_image d image env
      = ((pollUploads env.numElems env.poll).1.map some,
         { d with action := "Uploading " ++ image.name },
         Event.setState d.state ("Uploading " ++ image.name)
           :: Event.findUploadElems env.numElems
           :: (List.replicate env.busyIters (Event.sleep 3)
               ++ submitPhase image.file_path env.submitIters
               ++ (pollUploads env.numElems env.poll).2)) := by
  rcases h : pollUploads env.numElems env.poll with ⟨pid, ptr⟩
  simp [upload_image, hf, set_state, h]

theorem upload_image_neg (d : AutofillDriver) (image : CardImage)
    (env : UploadEnv) (hf : image.file_exists = false) :
    upload_image d image env
      = (some none, { d with action := "" }, [Event.setState d.state ""]) := by
  simp [upload_image, hf, set_state]

theorem insert_image_some (d : AutofillDriver) (p : String)
    (image : CardImage) (hp : p ≠ "") :
    insert_image d (some p) image
      = ({ d with action := "" },
         Event.setState d.state ("Inserting " ++ image.name)
           :: Event.js JsCommand.pageLayoutPrototype
           :: (image.slots.flatMap (fun slot =>
                 [Event.js (JsCommand.applyDragPhoto slot p), Event.waited])
               ++ [Event.setState d.state ""])) := by
  simp [insert_image, hp, set_state]

theorem upload_image_trace_events (d : AutofillDriver) (image : CardImage)
    (env : UploadEnv) :
    ∀ e ∈ (upload_image d image env).2.2, e.fromUploadInsert = true := by
  intro e he
  by_cases hf : image.file_exists
  · rw [upload_image_pos d image env hf] at he
    simp only [List.mem_cons, List.mem_append, List.mem_replicate] at he
    rcases he with rfl | rfl | (⟨-, rfl⟩ | he) | he
    · rfl
    · rfl
    · rfl
    · rcases submitPhase_events image.file_path env.submitIters e he with rfl | rfl <;> rfl
    · exact isPollEvent_fromUploadInsert e (pollUploads_trace_events _ _ e he)
  · rw [upload_image_neg d image env (by simpa using hf)] at he
    simp only [List.mem_cons, List.not_mem_nil, or_false] at he
    subst he; rfl

theorem insert_image_trace_events (d : AutofillDriver) (pid : Option String)
    (image : CardImage) :
    ∀ e ∈ (insert_image d pid image).2, e.fromUploadInsert = true := by
  intro e he
  cases pid with
  | none => simp [insert_image] at he
  | some p =>
      by_cases hp : p = ""
      · simp [insert_image, hp] at he
      · rw [insert_image_some d p image hp] at he
        simp only [List.mem_cons, List.mem_append, List.mem_flatMap,
          List.not_mem_nil, or_false] at he
        rcases he with rfl | rfl | ⟨s, -, rfl | rfl⟩ | rfl
        · rfl
        · rfl
        · rfl
        · rfl
        · rfl

theorem upload_and_insert_image_trace_events (d : AutofillDriver)
    (image : CardImage) (env : UploadEnv) :
    ∀ e ∈ (upload_and_insert_image d image env).2, e.fromUploadInsert = true := by
  intro e he
  unfold upload_and_insert_image at he
  rcases hu : upload_image d image env with ⟨pid, d1, tr⟩
  rw [hu] at he
  cases pid with
  | none =>
      have := upload_image_trace_events d image env e
      rw [hu] at this
      exact this he
  | some q =>
      simp only [List.mem_append] at he
      rcases he with he | he
      · have := upload_image_trace_events d image env e
        rw [hu] at this
        exact this he
      · exact insert_image_trace_events d1 q image e he

theorem fromUploadInsert_cases (e : Event) (h : e.fromUploadInsert = true) :
    e.isPop = false ∧ e.isBarUpdate = false ∧ e.isModeSelect = false := by
  cases e <;>
    try (simp_all [Event.fromUploadInsert, Event.isPop, Event.isBarUpdate,
      Event.isModeSelect])
  rename_i c
  cases c <;>
    simp_all [Event.fromUploadInsert, Event.isPop, Event.isBarUpdate,
      Event.isModeSelect]

theorem countP_eq_zero_of_all {l : List Event} {p : Event → Bool}
    (h : ∀ e ∈ l, p e = false) : l.countP p = 0 := by
  rw [List.countP_eq_zero]
  intro a ha
  simp [h a ha]

theorem insert_image_state (d : AutofillDriver) (pid : Option String)
    (image : CardImage) : (insert_image d pid image).1.state = d.state := by
  cases pid with
  | none => rfl
  | some p =>
      by_cases hp : p = ""
      · simp [insert_image, hp]
      · rw [insert_image_some d p image hp]

theorem upload_image_state (d : AutofillDriver) (image : CardImage)
    (env : UploadEnv) : (upload_image d image env).2.1.state = d.state := by
  by_cases hf : image.file_exists
  · rw [upload_image_pos d image env hf]
  · rw [upload_image_neg d image env (by simpa using hf)]

theorem upload_and_insert_image_state (d : AutofillDriver) (image : CardImage)
    (env : UploadEnv) (d' : AutofillDriver)
    (h : (upload_and_insert_image d image env).1 = RunResult.ok d') :
    d'.state = d.state := by
  unfold upload_and_insert_image at h
  rcases hu : upload_image d image env with ⟨pid, d1, tr⟩
  rw [hu] at h
  cases pid with
  | none => simp at h
  | some q =>
      simp only at h
      rcases hi : insert_image d1 q image with ⟨d2, tr2⟩
      rw [hi] at h
      simp only [RunResult.ok.injEq] at h
      subst h
      have h1 : d2.state = d1.state := by
        have := insert_image_state d1 q image
        rw [hi] at this
        exact this
      have h2 : d1.state = d.state := by
        have := upload_image_state d image env
        rw [hu] at this
        exact this
      rw [h1, h2]

theorem upload_image_setState (d : AutofillDriver) (image : CardImage)
    (env : UploadEnv) (st : States) (a : String)
    (h : Event.setState st a ∈ (upload_image d image env).2.2) : st = d.state := by
  by_cases hf : image.file_exists
  · rw [upload_image_pos d image env hf] at h
    simp only [List.mem_cons, List.mem_append, List.mem_replicate] at h
    rcases h with h | h | (⟨-, h⟩ | h) | h
    · exact (Event.setState.injEq _ _ _ _).mp h |>.1
    · simp at h
    · simp at h
    · rcases submitPhase_events image.file_path env.submitIters _ h with h | h <;> simp at h
    · have := pollUploads_trace_events env.numElems env.poll _ h
      simp [Event.isPollEvent] at this
  · rw [upload_image_neg d image env (by simpa using hf)] at h
    simp only [List.mem_cons, List.not_mem_nil, or_false] at h
    exact (Event.setState.injEq _ _ _ _).mp h |>.1

theorem insert_image_setState (d : AutofillDriver) (pid : Option String)
    (image : CardImage) (st : States) (a : String)
    (h : Event.setState st a ∈ (insert_image d pid image).2) : st = d.state := by
  cases pid with
  | none => simp [insert_image] at h
  | some p =>
      by_cases hp : p = ""
      · simp [insert_image, hp] at h
      · rw [insert_image_some d p image hp] at h
        simp only [List.mem_cons, List.mem_append, List.mem_flatMap,
          List.not_mem_nil, or_false] at h
        rcases h with h | h | ⟨s, -, h | h⟩ | h
        · exact (Event.setState.injEq _ _ _ _).mp h |>.1
        · simp at h
        · simp at h
        · simp at h
        · exact (Event.setState.injEq _ _ _ _).mp h |>.1

theorem upload_and_insert_image_setState (d : AutofillDriver)
    (image : CardImage) (env : UploadEnv) (st : States) (a : String)
    (h : Event.setState st a ∈ (upload_and_insert_image d image env).2) :
    st = d.state := by
  unfold upload_and_insert_image at h
  rcases hu : upload_image d image env with ⟨pid, d1, tr⟩
  rw [hu] at h
  have hst : d1.state = d.state := by
    have := upload_image_state d image env
    rw [hu] at this
    exact this
  cases pid with
  | none =>
      have := upload_image_setState d image env st a
      rw [hu] at this
      exact this h
  | some q =>
      simp only [List.mem_append] at h
      rcases h with h | h
      · have := upload_image_setState d image env st a
        rw [hu] at this
        exact this h
      · rcases hi : insert_image d1 q image with ⟨d2, tr2⟩
        rw [hi] at h
        have := insert_image_setState d1 q image st a
        rw [hi] at this
        rw [← hst]
        exact this h

theorem sequencerLoop_ok_state (env : Nat → UploadEnv) :
    ∀ (k : Nat) (d : AutofillDriver) (i : Nat) (q : List CardImage)
      (d' : AutofillDriver),
      (sequencerLoop env d i k q).1 = RunResult.ok d' → d'.state = d.state := by
  intro k
  induction k with
  | zero =>
      intro d i q d' h
      simp only [sequencerLoop, RunResult.ok.injEq] at h
      subst h; rfl
  | succ n ih =>
      intro d i q d' h
      cases q with
      | nil => simp [sequencerLoop] at h
      | cons image rest =>
          by_cases hd : image.downloaded
          · rcases hu : upload_and_insert_image d image (env i) with ⟨r, tr⟩
            cases r with
            | ok d1 =>
                simp only [sequencerLoop, hd, if_true, hu] at h
                have h2 := ih d1 (i + 1) rest d' h
                have h3 := upload_and_insert_image_state d image (env i) d1 (by rw [hu])
                rw [h2, h3]
            | err e dx => simp [sequencerLoop, hd, hu] at h
            | blocked => simp [sequencerLoop, hd, hu] at h
          · simp only [sequencerLoop, hd, if_false, Bool.false_eq_true] at h
            exact ih d (i + 1) rest d' h

theorem sequencerLoop_setState (env : Nat → UploadEnv) :
    ∀ (k : Nat) (d : AutofillDriver) (i : Nat) (q : List CardImage)
      (st : States) (a : String),
      Event.setState st a ∈ (sequencerLoop env d i k q).2 → st = d.state := by
  intro k
  induction k with
  | zero => intro d i q st a h; simp [sequencerLoop] at h
  | succ n ih =>
      intro d i q st a h
      cases q with
      | nil => simp [sequencerLoop] at h
      | cons image rest =>
          by_cases hd : image.downloaded
          · rcases hu : upload_and_insert_image d image (env i) with ⟨r, tr⟩
            cases r with
            | ok d1 =>
                simp only [sequencerLoop, hd, if_true, hu, List.mem_cons,
                  List.mem_append] at h
                rcases h with h | (h | h)
                · simp at h
                · have := upload_and_insert_image_setState d image (env i) st a
                  rw [hu] at this
                  exact this h
                · rcases h with h | h
                  · simp at h
                  · have h2 := ih d1 (i + 1) rest st a h
                    have h3 := upload_and_insert_image_state d image (env i) d1
                      (by rw [hu])
                    rw [h2, h3]
            | err e dx =>
                simp only [sequencerLoop, hd, if_true, hu, List.mem_cons] at h
                rcases h with h | h
                · simp at h
                · have := upload_and_insert_image_setState d image (env i) st a
                  rw [hu] at this
                  exact this h
            | blocked =>
                simp only [sequencerLoop, hd, if_true, hu, List.mem_cons] at h
                rcases h with h | h
                · simp at h
                · have := upload_and_insert_image_setState d image (env i) st a
                  rw [hu] at this
                  exact this h
          · simp only [sequencerLoop, hd, if_false, Bool.false_eq_true,
              List.mem_cons] at h
            rcases h with h | (h | h)
            · simp at h
            · simp at h
            · exact ih d (i + 1) rest st a h

theorem sequencerLoop_no_mode (env : Nat → UploadEnv) :
    ∀ (k : Nat) (d : AutofillDriver) (i : Nat) (q : List CardImage),
      (sequencerLoop env d i k q).2.countP Event.isModeSelect = 0 := by
  intro k
  induction k with
  | zero => intro d i q; simp [sequencerLoop, List.countP_nil]
  | succ n ih =>
      intro d i q
      cases q with
      | nil => simp [sequencerLoop, List.countP_nil]
      | cons image rest =>
          have htr : ∀ env1, (upload_and_insert_image d image env1).2.countP
              Event.isModeSelect = 0 := by
            intro env1
            exact countP_eq_zero_of_all (fun e he =>
              (fromUploadInsert_cases e
                (upload_and_insert_image_trace_events d image env1 e he)).2.2)
          by_cases hd : image.downloaded
          · rcases hu : upload_and_insert_image d image (env i) with ⟨r, tr⟩
            have htr2 : tr.countP Event.isModeSelect = 0 := by
              have := htr (env i); rw [hu] at this; exact this
            cases r with
            | ok d1 =>
                simp [sequencerLoop, hd, hu, List.countP_cons, List.countP_append,
                  htr2, ih, Event.isModeSelect]
            | err e dx =>
                simp [sequencerLoop, hd, hu, List.countP_cons, htr2,
                  Event.isModeSelect]
            | blocked =>
                simp [sequencerLoop, hd, hu, List.countP_cons, htr2,
                  Event.isModeSelect]
          · simp [sequencerLoop, hd, List.countP_cons, ih, Event.isModeSelect]

theorem sequencerLoop_counts (env : Nat → UploadEnv) :
    ∀ (k : Nat) (d : AutofillDriver) (i : Nat) (q : List CardImage)
      (d' : AutofillDriver),
      (sequencerLoop env d i k q).1 = RunResult.ok d' →
      (sequencerLoop env d i k q).2.countP Event.isPop = k ∧
      (sequencerLoop env d i k q).2.countP Event.isBarUpdate = k := by
  intro k
  induction k with
  | zero => intro d i q d' _; simp [sequencerLoop, List.countP_nil]
  | succ n ih =>
      intro d i q d' h
      cases q with
      | nil => simp [sequencerLoop] at h
      | cons image rest =>
          by_cases hd : image.downloaded
          · rcases hu : upload_and_insert_image d image (env i) with ⟨r, tr⟩
            have htrPop : tr.countP Event.isPop = 0 := by
              have := countP_eq_zero_of_all (l := tr) (p := Event.isPop)
                (fun e he => by
                  have hm : e ∈ (upload_and_insert_image d image (env i)).2 := by
                    rw [hu]; exact he
                  exact (fromUploadInsert_cases e
                    (upload_and_insert_image_trace_events d image (env i) e hm)).1)
              exact this
            have htrBar : tr.countP Event.isBarUpdate = 0 := by
              have := countP_eq_zero_of_all (l := tr) (p := Event.isBarUpdate)
                (fun e he => by
                  have hm : e ∈ (upload_and_insert_image d image (env i)).2 := by
                    rw [hu]; exact he
                  exact (fromUploadInsert_cases e
                    (upload_and_insert_image_trace_events d image (env i) e hm)).2.1)
              exact this
            cases r with
            | ok d1 =>
                simp only [sequencerLoop, hd, if_true, hu] at h ⊢
                have hrec := ih d1 (i + 1) rest d' h
                simp [List.countP_cons, List.countP_append, htrPop, htrBar,
                  hrec.1, hrec.2, Event.isPop, Event.isBarUpdate, Nat.add_comm]
            | err e dx => simp [sequencerLoop, hd, hu] at h
            | blocked => simp [sequencerLoop, hd, hu] at h
          · simp only [sequencerLoop, hd, if_false, Bool.false_eq_true] at h ⊢
            have hrec := ih d (i + 1) rest d' h
            simp [List.countP_cons, hrec.1, hrec.2, Event.isPop,
              Event.isBarUpdate, Nat.add_comm]

/-! The claim theorems. -/

/-- C1: for every public workflow operation (`define_order`, the paging step
of `insert_fronts`, the paging step of `insert_backs`), if the current
Workflow State is not the operation's declared entry state, the operation
fails with an `InvalidStateException` carrying the expected and actual
states, and the driver state is unchanged: the trace is empty, so nothing
was mutated before the check failed. -/
theorem C1_entry_state_precondition (d : AutofillDriver) (order : CardOrder)
    (envF envB : Nat → UploadEnv) (cb : Bool) :
    (d.state ≠ States.defining_order →
        define_order d order
          = (RunResult.err ⟨States.defining_order, d.state⟩ d, []))
    ∧ (d.state ≠ States.paging_to_fronts →
        insert_fronts d order envF
          = (RunResult.err ⟨States.paging_to_fronts, d.state⟩ d, []))
    ∧ (d.state ≠ States.paging_to_backs →
        insert_backs d order envB cb
          = (RunResult.err ⟨States.paging_to_backs, d.state⟩ d, [])) := by
  refine ⟨?_, ?_, ?_⟩
  · intro h; simp [define_order, assert_state, h]
  · intro h; simp [insert_fronts, page_to_fronts, assert_state, h]
  · intro h; simp [insert_backs, page_to_backs, assert_state, h]

/-- Witness for C1 at a concrete driver stuck in `initialising`. -/
theorem C1_entry_state_precondition_witness :
    define_order ⟨States.initialising, ""⟩
        ⟨⟨"S30", 1, 18, false⟩, ⟨[], []⟩, ⟨[], []⟩⟩
      = (RunResult.err ⟨States.defining_order, States.initialising⟩
          ⟨States.initialising, ""⟩, [])
    ∧ insert_fronts ⟨States.initialising, ""⟩
        ⟨⟨"S30", 1, 18, false⟩, ⟨[], []⟩, ⟨[], []⟩⟩ (fun _ => ⟨0, 0, 0, []⟩)
      = (RunResult.err ⟨States.paging_to_fronts, States.initialising⟩
          ⟨States.initialising, ""⟩, [])
    ∧ insert_backs ⟨States.initialising, ""⟩
        ⟨⟨"S30", 1, 18, false⟩, ⟨[], []⟩, ⟨[], []⟩⟩ (fun _ => ⟨0, 0, 0, []⟩) true
      = (RunResult.err ⟨States.paging_to_backs, States.initialising⟩
          ⟨States.initialising, ""⟩, []) :=
  ⟨(C1_entry_state_precondition ⟨States.initialising, ""⟩
      ⟨⟨"S30", 1, 18, false⟩, ⟨[], []⟩, ⟨[], []⟩⟩ (fun _ => ⟨0, 0, 0, []⟩)
      (fun _ => ⟨0, 0, 0, []⟩) true).1 (by decide),
   (C1_entry_state_precondition ⟨States.initialising, ""⟩
      ⟨⟨"S30", 1, 18, false⟩, ⟨[], []⟩, ⟨[], []⟩⟩ (fun _ => ⟨0, 0, 0, []⟩)
      (fun _ => ⟨0, 0, 0, []⟩) true).2.1 (by decide),
   (C1_entry_state_precondition ⟨States.initialising, ""⟩
      ⟨⟨"S30", 1, 18, false⟩, ⟨[], []⟩, ⟨[], []⟩⟩ (fun _ => ⟨0, 0, 0, []⟩)
      (fun _ => ⟨0, 0, 0, []⟩) true).2.2 (by decide)⟩

/-- C3: when the sequencer phase for a collection completes normally, it
performs exactly `cards.length` pops from the delivery queue and advances
the uploaded progress counter exactly once per popped descriptor; a
collection with no descriptors performs zero pops, zero uploads and zero
inserts (its trace is empty). -/
theorem C3_sequencer_counts (d : AutofillDriver) (images : CardImageCollection)
    (env : Nat → UploadEnv) (d' : AutofillDriver)
    (h : (upload_and_insert_images d images env).1 = RunResult.ok d') :
    (upload_and_insert_images d images env).2.countP Event.isPop
        = images.cards.length
    ∧ (upload_and_insert_images d images env).2.countP Event.isBarUpdate
        = images.cards.length
    ∧ (images.cards = [] →
        upload_and_insert_images d images env = (RunResult.ok d, [])) := by
  refine ⟨?_, ?_, ?_⟩
  · exact (sequencerLoop_counts env images.cards.length d 0 images.queue d' h).1
  · exact (sequencerLoop_counts env images.cards.length d 0 images.queue d' h).2
  · intro hnil
    simp [upload_and_insert_images, hnil, sequencerLoop]

/-- Witness for C3 on a one-descriptor collection whose upload succeeds. -/
theorem C3_sequencer_counts_witness :
    (upload_and_insert_images ⟨States.inserting_fronts, ""⟩
        ⟨[⟨"c1", "c1.png", [0], true, true⟩], [⟨"c1", "c1.png", [0], true, true⟩]⟩
        (fun _ => ⟨2, 1, 0, [PollOutcome.elems 3 "pid3"]⟩)).1
      = RunResult.ok ⟨States.inserting_fronts, ""⟩
    ∧ (upload_and_insert_images ⟨States.inserting_fronts, ""⟩
        ⟨[⟨"c1", "c1.png", [0], true, true⟩], [⟨"c1", "c1.png", [0], true, true⟩]⟩
        (fun _ => ⟨2, 1, 0, [PollOutcome.elems 3 "pid3"]⟩)).2.countP Event.isPop
      = 1
    ∧ (upload_and_insert_images ⟨States.inserting_fronts, ""⟩
        ⟨[⟨"c1", "c1.png", [0], true, true⟩], [⟨"c1", "c1.png", [0], true, true⟩]⟩
        (fun _ => ⟨2, 1, 0, [PollOutcome.elems 3 "pid3"]⟩)).2.countP
          Event.isBarUpdate = 1 :=
  ⟨by decide,
   (C3_sequencer_counts ⟨States.inserting_fronts, ""⟩
      ⟨[⟨"c1", "c1.png", [0], true, true⟩], [⟨"c1", "c1.png", [0], true, true⟩]⟩
      (fun _ => ⟨2, 1, 0, [PollOutcome.elems 3 "pid3"]⟩)
      ⟨States.inserting_fronts, ""⟩ (by decide)).1,
   (C3_sequencer_counts ⟨States.inserting_fronts, ""⟩
      ⟨[⟨"c1", "c1.png", [0], true, true⟩], [⟨"c1", "c1.png", [0], true, true⟩]⟩
      (fun _ => ⟨2, 1, 0, [PollOutcome.elems 3 "pid3"]⟩)
      ⟨States.inserting_fronts, ""⟩ (by decide)).2.1⟩

/-- C4: a descriptor popped with `downloaded = false` is skipped entirely:
its loop iteration contributes exactly the pop and the progress-counter
advance to the trace (no upload, no insert), and the contributed events
contain no file submission and no slot placement. -/
theorem C4_undownloaded_descriptor_skipped (env : Nat → UploadEnv)
    (d : AutofillDriver) (i k : Nat) (image : CardImage)
    (rest : List CardImage) (h : image.downloaded = false) :
    sequencerLoop env d i (k + 1) (image :: rest)
      = ((sequencerLoop env d (i + 1) k rest).1,
         Event.popQueue image.name :: Event.uploadBarUpdate
           :: (sequencerLoop env d (i + 1) k rest).2)
    ∧ [Event.popQueue image.name, Event.uploadBarUpdate].countP
        (fun e => e.isSubmit || e.isPlacement) = 0 := by
  constructor
  · rcases hs : sequencerLoop env d (i + 1) k rest with ⟨r, tr⟩
    simp [sequencerLoop, h, hs]
  · simp [List.countP_cons, Event.isSubmit, Event.isPlacement]

/-- Witness for C4 on a concrete undownloaded descriptor. -/
theorem C4_undownloaded_descriptor_skipped_witness :
    sequencerLoop (fun _ => ⟨0, 0, 0, []⟩) ⟨States.inserting_fronts, ""⟩ 0 1
        [⟨"c1", "c1.png", [0], false, false⟩]
      = ((sequencerLoop (fun _ => ⟨0, 0, 0, []⟩) ⟨States.inserting_fronts, ""⟩
            1 0 []).1,
         Event.popQueue "c1" :: Event.uploadBarUpdate
           :: (sequencerLoop (fun _ => ⟨0, 0, 0, []⟩)
                ⟨States.inserting_fronts, ""⟩ 1 0 []).2)
    ∧ [Event.popQueue "c1", Event.uploadBarUpdate].countP
        (fun e => e.isSubmit || e.isPlacement) = 0 :=
  C4_undownloaded_descriptor_skipped (fun _ => ⟨0, 0, 0, []⟩)
    ⟨States.inserting_fronts, ""⟩ 0 0 ⟨"c1", "c1.png", [0], false, false⟩ []
    (by decide)

theorem filter_slot_pairs (p : String) (slots : List Nat) :
    ((slots.flatMap (fun slot =>
        [Event.js (JsCommand.applyDragPhoto slot p), Event.waited])).filter
          (fun e => e.isPlacement || e.isWaited)
      = slots.flatMap (fun slot =>
          [Event.js (JsCommand.applyDragPhoto slot p), Event.waited]))
    ∧ ((slots.flatMap (fun slot =>
        [Event.js (JsCommand.applyDragPhoto slot p), Event.waited])).filter
          Event.isPlacement
      = slots.map (fun slot => Event.js (JsCommand.applyDragPhoto slot p))) := by
  induction slots with
  | nil => exact ⟨rfl, rfl⟩
  | cons s rest ih =>
      constructor
      · simp only [List.flatMap_cons, List.filter_append, ih.1]
        simp [Event.isPlacement, Event.isWaited]
      · simp only [List.flatMap_cons, List.filter_append, ih.2, List.map_cons]
        simp [Event.isPlacement, Event.isWaited]

/-- C5: for a descriptor whose upload produced a truthy pid, the insert
step issues exactly one placement command per slot, in the order of the
slot list, with each placement followed by a wait for the busy indicator
before the next command: the sub-trace of placement and wait events is
exactly the alternation placement, wait, placement, wait, ... over the slot
list, and the placement commands alone are exactly the slot list in
order. -/
theorem C5_insert_slots_sequential (d : AutofillDriver) (p : String)
    (image : CardImage) (hp : p ≠ "") :
    ((insert_image d (some p) image).2).filter
        (fun e => e.isPlacement || e.isWaited)
      = image.slots.flatMap (fun slot =>
          [Event.js (JsCommand.applyDragPhoto slot p), Event.waited])
    ∧ ((insert_image d (some p) image).2).filter Event.isPlacement
      = image.slots.map (fun slot => Event.js (JsCommand.applyDragPhoto slot p))
    ∧ (((insert_image d (some p) image).2).filter Event.isPlacement).length
      = image.slots.length := by
  rw [insert_image_some d p image hp]
  refine ⟨?_, ?_, ?_⟩
  · simp only [List.filter_cons, List.filter_append,
      (filter_slot_pairs p image.slots).1]
    simp [Event.isPlacement, Event.isWaited]
  · simp only [List.filter_cons, List.filter_append,
      (filter_slot_pairs p image.slots).2]
    simp [Event.isPlacement, Event.isWaited]
  · simp only [List.filter_cons, List.filter_append,
      (filter_slot_pairs p image.slots).2]
    simp [Event.isPlacement, Event.isWaited]

/-- Witness for C5 with the slot list [2, 5, 2] from the spec. -/
theorem C5_insert_slots_sequential_witness :
    ((insert_image ⟨States.inserting_fronts, ""⟩ (some "pid1")
        ⟨"c1", "c1.png", [2, 5, 2], true, true⟩).2).filter
          (fun e => e.isPlacement || e.isWaited)
      = [Event.js (JsCommand.applyDragPhoto 2 "pid1"), Event.waited,
         Event.js (JsCommand.applyDragPhoto 5 "pid1"), Event.waited,
         Event.js (JsCommand.applyDragPhoto 2 "pid1"), Event.waited]
    ∧ ((insert_image ⟨States.inserting_fronts, ""⟩ (some "pid1")
        ⟨"c1", "c1.png", [2, 5, 2], true, true⟩).2).filter Event.isPlacement
      = [Event.js (JsCommand.applyDragPhoto 2 "pid1"),
         Event.js (JsCommand.applyDragPhoto 5 "pid1"),
         Event.js (JsCommand.applyDragPhoto 2 "pid1")] :=
  ⟨(C5_insert_slots_sequential ⟨States.inserting_fronts, ""⟩ "pid1"
      ⟨"c1", "c1.png", [2, 5, 2], true, true⟩ (by decide)).1,
   (C5_insert_slots_sequential ⟨States.inserting_fronts, ""⟩ "pid1"
      ⟨"c1", "c1.png", [2, 5, 2], true, true⟩ (by decide)).2.1⟩

/-- C6: when the upload step yields no identifier (`None`) or a falsy one
(the empty string), `insert_image` issues no session commands at all: it
returns the driver unchanged with an empty trace. -/
theorem C6_falsy_pid_no_commands (d : AutofillDriver) (pid : Option String)
    (image : CardImage) (h : truthy pid = false) :
    insert_image d pid image = (d, []) := by
  cases pid with
  | none => rfl
  | some p =>
      have hp : p = "" := by simpa [truthy] using h
      simp [insert_image, hp]

/-- Witness for C6 at `pid = none`. -/
theorem C6_falsy_pid_no_commands_witness :
    truthy none = false
    ∧ insert_image ⟨States.inserting_backs, ""⟩ none
        ⟨"c9", "c9.png", [1, 2], true, true⟩
      = (⟨States.inserting_backs, ""⟩, []) :=
  ⟨rfl, C6_falsy_pid_no_commands ⟨States.inserting_backs, ""⟩ none
    ⟨"c9", "c9.png", [1, 2], true, true⟩ rfl⟩

/-- C7: transient session noise never propagates out of the wait/poll
loops. An unsolicited dialog during upload polling is accepted and the
polling loop resumes with the same final result as if the dialog had never
appeared; a timeout of the loading-indicator wait is absorbed by retrying
the wait itself, and a wait whose indicator eventually clears returns
normally no matter how many timeouts preceded it. -/
theorem C7_transient_noise_never_propagates :
    (∀ (k : Nat) (outs : List PollOutcome),
        (pollUploads k outs).1
          = (pollUploads k (outs.filter (fun o => !o.isAlert))).1)
    ∧ (∀ (m : Nat) (rest : List WaitOutcome),
        waitRetry (List.replicate m WaitOutcome.timeout ++ rest)
          = waitRetry rest)
    ∧ (∀ (m : Nat) (elemPresent : Bool),
        wait elemPresent
            (List.replicate m WaitOutcome.timeout ++ [WaitOutcome.cleared])
          = some ()) := by
  refine ⟨pollUploads_fst_filter_alerts, waitRetry_absorbs_timeouts, ?_⟩
  intro m ep
  cases ep with
  | false => rfl
  | true =>
      show waitRetry _ = some ()
      rw [waitRetry_absorbs_timeouts]
      rfl

theorem firstNewPid_append (k n : Nat) (newPid : String)
    (pre post : List PollOutcome)
    (hpre : ∀ m q, PollOutcome.elems m q ∈ pre → m ≤ k) (hn : k < n) :
    firstNewPid k (pre ++ PollOutcome.elems n newPid :: post) = some newPid := by
  induction pre with
  | nil => simp [firstNewPid, hn]
  | cons o rest ih =>
      cases o with
      | elems m q =>
          have hm : m ≤ k := hpre m q (List.mem_cons_self _ _)
          have hnm : ¬k < m := by omega
          simp only [List.cons_append, firstNewPid, hnm, if_false]
          exact ih (fun m' q' h' => hpre m' q' (List.mem_cons_of_mem _ h'))
      | alert pr =>
          simp only [List.cons_append, firstNewPid]
          exact ih (fun m' q' h' => hpre m' q' (List.mem_cons_of_mem _ h'))

/-- C8: for a descriptor whose local file exists, the upload step records
the size of the completed-upload list, waits out the busy indicator,
submits the file, and then only polls, returning the identifier of the
first observed upload list that has grown strictly past the recorded size:
the trace is the action update and the recorded count, followed by the busy
sleeps, followed by the submissions, followed by events of the polling loop
only, and the result is the new entry's pid. -/
theorem C8_upload_phase_order (d : AutofillDriver) (image : CardImage)
    (env : UploadEnv) (n : Nat) (newPid : String) (pre post : List PollOutcome)
    (hf : image.file_exists = true)
    (hpoll : env.poll = pre ++ PollOutcome.elems n newPid :: post)
    (hpre : ∀ m q, PollOutcome.elems m q ∈ pre → m ≤ env.numElems)
    (hn : env.numElems < n) :
    ∃ ptr : List Event,
      upload_image d image env
        = (some (some newPid), { d with action := "Uploading " ++ image.name },
           Event.setState d.state ("Uploading " ++ image.name)
             :: Event.findUploadElems env.numElems
             :: (List.replicate env.busyIters (Event.sleep 3)
                 ++ submitPhase image.file_path env.submitIters ++ ptr))
      ∧ (∀ e ∈ ptr, e.isPollEvent = true) := by
  refine ⟨(pollUploads env.numElems env.poll).2, ?_,
    pollUploads_trace_events _ _⟩
  rw [upload_image_pos d image env hf]
  have hfst : (pollUploads env.numElems env.poll).1 = some newPid := by
    rw [pollUploads_fst_eq_firstNewPid, hpoll]
    exact firstNewPid_append env.numElems n newPid pre post hpre hn
  rw [hfst]
  rfl

/-- Witness for C8: a concrete upload where the element list is observed
unchanged once, a dialog fires, and then the list has grown. -/
theorem C8_upload_phase_order_witness :
    ∃ ptr : List Event,
      upload_image ⟨States.inserting_fronts, ""⟩
          ⟨"c1", "c1.png", [0], true, true⟩
          ⟨2, 1, 0, [PollOutcome.elems 2 "x", PollOutcome.alert true,
                     PollOutcome.elems 3 "pid3"]⟩
        = (some (some "pid3"),
           ⟨States.inserting_fronts, "Uploading c1"⟩,
           Event.setState States.inserting_fronts "Uploading c1"
             :: Event.findUploadElems 2
             :: (List.replicate 1 (Event.sleep 3)
                 ++ submitPhase "c1.png" 0 ++ ptr))
      ∧ (∀ e ∈ ptr, e.isPollEvent = true) :=
  C8_upload_phase_order ⟨States.inserting_fronts, ""⟩
    ⟨"c1", "c1.png", [0], true, true⟩
    ⟨2, 1, 0, [PollOutcome.elems 2 "x", PollOutcome.alert true,
               PollOutcome.elems 3 "pid3"]⟩
    3 "pid3" [PollOutcome.elems 2 "x", PollOutcome.alert true] []
    (by decide) (by decide)
    (by
      intro m q h
      simp only [List.mem_cons, List.not_mem_nil, or_false,
        PollOutcome.elems.injEq] at h
      rcases h with ⟨rfl, -⟩ | h
      · exact Nat.le_refl 2
      · cases h)
    (by decide)

/-- C10: a descriptor with `downloaded = true` whose local file is missing
at upload time produces no session interaction: the upload yields no
identifier (so the insert step does nothing), and the loop iteration for it
contributes exactly the queue pop, the action-reset status update and the
progress-counter advance, events that contain no submission, no placement
and no polling. -/
theorem C10_missing_file_no_session_interaction (env : Nat → UploadEnv)
    (d : AutofillDriver) (i k : Nat) (image : CardImage)
    (rest : List CardImage) (h1 : image.downloaded = true)
    (h2 : image.file_exists = false) :
    (upload_image d image (env i)).1 = some none
    ∧ insert_image { d with action := "" } none image
        = ({ d with action := "" }, [])
    ∧ sequencerLoop env d i (k + 1) (image :: rest)
        = ((sequencerLoop env { d with action := "" } (i + 1) k rest).1,
           Event.popQueue image.name :: Event.setState d.state ""
             :: Event.uploadBarUpdate
             :: (sequencerLoop env { d with action := "" } (i + 1) k rest).2)
    ∧ [Event.popQueue image.name, Event.setState d.state "",
        Event.uploadBarUpdate].countP
          (fun e => e.isSubmit || e.isPlacement || e.isPollEvent) = 0 := by
  refine ⟨?_, rfl, ?_, ?_⟩
  · rw [upload_image_neg d image (env i) h2]
  · have hu : upload_and_insert_image d image (env i)
        = (RunResult.ok { d with action := "" }, [Event.setState d.state ""]) := by
      unfold upload_and_insert_image
      rw [upload_image_neg d image (env i) h2]
      rfl
    rcases hs : sequencerLoop env { d with action := "" } (i + 1) k rest
      with ⟨r, tr⟩
    simp [sequencerLoop, h1, hu, hs]
  · simp [List.countP_cons, Event.isSubmit, Event.isPlacement,
      Event.isPollEvent]

/-- Witness for C10 on a concrete downloaded descriptor with a missing
file. -/
theorem C10_missing_file_no_session_interaction_witness :
    (upload_image ⟨States.inserting_backs, ""⟩
        ⟨"c2", "c2.png", [1], true, false⟩ ((fun _ => ⟨0, 0, 0, []⟩) 0)).1
      = some none
    ∧ insert_image ⟨States.inserting_backs, ""⟩ none
        ⟨"c2", "c2.png", [1], true, false⟩
      = (⟨States.inserting_backs, ""⟩, [])
    ∧ sequencerLoop (fun _ => ⟨0, 0, 0, []⟩) ⟨States.inserting_backs, ""⟩ 0 1
        [⟨"c2", "c2.png", [1], true, false⟩]
      = ((sequencerLoop (fun _ => ⟨0, 0, 0, []⟩) ⟨States.inserting_backs, ""⟩
            1 0 []).1,
         Event.popQueue "c2" :: Event.setState States.inserting_backs ""
           :: Event.uploadBarUpdate
           :: (sequencerLoop (fun _ => ⟨0, 0, 0, []⟩)
                ⟨States.inserting_backs, ""⟩ 1 0 []).2)
    ∧ [Event.popQueue "c2", Event.setState States.inserting_backs "",
        Event.uploadBarUpdate].countP
          (fun e => e.isSubmit || e.isPlacement || e.isPollEvent) = 0 :=
  C10_missing_file_no_session_interaction (fun _ => ⟨0, 0, 0, []⟩)
    ⟨States.inserting_backs, ""⟩ 0 0 ⟨"c2", "c2.png", [1], true, false⟩ []
    (by decide) (by decide)

/-- C2 counterexample: a fronts collection with exactly one descriptor.
The claim says the page-transition sub-step must then select same-image
mode, but `page_to_fronts` unconditionally selects different-image mode:
the paging trace for this face never contains the same-image command and
does contain the different-image command. -/
theorem C2_fronts_single_descriptor_counterexample :
    (⟨⟨"S30", 1, 18, false⟩,
      ⟨[⟨"f1", "f1.png", [0], true, true⟩],
       [⟨"f1", "f1.png", [0], true, true⟩]⟩,
      ⟨[], []⟩⟩ : CardOrder).fronts.cards.length = 1
    ∧ Event.js JsCommand.setModeSame
        ∉ (page_to_fronts ⟨States.paging_to_fronts, ""⟩
            ⟨⟨"S30", 1, 18, false⟩,
             ⟨[⟨"f1", "f1.png", [0], true, true⟩],
              [⟨"f1", "f1.png", [0], true, true⟩]⟩,
             ⟨[], []⟩⟩).2
    ∧ Event.js JsCommand.setModeDifferent
        ∈ (page_to_fronts ⟨States.paging_to_fronts, ""⟩
            ⟨⟨"S30", 1, 18, false⟩,
             ⟨[⟨"f1", "f1.png", [0], true, true⟩],
              [⟨"f1", "f1.png", [0], true, true⟩]⟩,
             ⟨[], []⟩⟩).2 := by
  decide

/-- C2 (amended): the fronts page-transition always selects different-image
mode, regardless of the number of front descriptors; the backs
page-transition selects same-image mode when the backs collection has
exactly one descriptor and different-image mode otherwise. In both cases
the mode command is issued exactly once per face, before any upload for
that face: the trace splits around a single mode command, with no other
mode command anywhere and no file submission before it. -/
theorem C2_mode_selection_amended (d : AutofillDriver) (order : CardOrder)
    (envF envB : Nat → UploadEnv) (cb : Bool) :
    (d.state = States.paging_to_fronts →
      ∃ pre post, (insert_fronts d order envF).2
          = pre ++ Event.js JsCommand.setModeDifferent :: post
        ∧ pre.countP Event.isModeSelect = 0
        ∧ post.countP Event.isModeSelect = 0
        ∧ pre.countP Event.isSubmit = 0)
    ∧ (d.state = States.paging_to_backs →
      ∃ pre post, (insert_backs d order envB cb).2
          = pre ++ Event.js (if order.backs.cards.length = 1
              then JsCommand.setModeSame
              else JsCommand.setModeDifferent) :: post
        ∧ pre.countP Event.isModeSelect = 0
        ∧ post.countP Event.isModeSelect = 0
        ∧ pre.countP Event.isSubmit = 0) := by
  constructor
  · intro h
    rcases hu : upload_and_insert_images
        { d with state := States.inserting_fronts, action := "" }
        order.fronts envF with ⟨r, tr2⟩
    have hmode : tr2.countP Event.isModeSelect = 0 := by
      have h0 := sequencerLoop_no_mode envF order.fronts.cards.length
        { d with state := States.inserting_fronts, action := "" } 0
        order.fronts.queue
      have hu2 : sequencerLoop envF
          { d with state := States.inserting_fronts, action := "" } 0
          order.fronts.cards.length order.fronts.queue = (r, tr2) := hu
      rw [hu2] at h0
      exact h0
    cases r with
    | ok d2 =>
        refine ⟨[Event.js JsCommand.doPersonalize,
            Event.switchFrame "sysifm_loginFrame",
            Event.js (JsCommand.setCardNumber order.details.quantity)],
          Event.switchDefault :: Event.setState States.inserting_fronts ""
            :: (tr2 ++ [Event.setState States.paging_to_backs ""]),
          ?_, ?_, ?_, ?_⟩
        · simp [insert_fronts, page_to_fronts, assert_state, h, set_state, hu]
        · rfl
        · simp [List.countP_cons, List.countP_append, hmode, Event.isModeSelect]
        · rfl
    | err e dx =>
        refine ⟨[Event.js JsCommand.doPersonalize,
            Event.switchFrame "sysifm_loginFrame",
            Event.js (JsCommand.setCardNumber order.details.quantity)],
          Event.switchDefault :: Event.setState States.inserting_fronts ""
            :: tr2, ?_, ?_, ?_, ?_⟩
        · simp [insert_fronts, page_to_fronts, assert_state, h, set_state, hu]
        · rfl
        · simp [List.countP_cons, hmode, Event.isModeSelect]
        · rfl
    | blocked =>
        refine ⟨[Event.js JsCommand.doPersonalize,
            Event.switchFrame "sysifm_loginFrame",
            Event.js (JsCommand.setCardNumber order.details.quantity)],
          Event.switchDefault :: Event.setState States.inserting_fronts ""
            :: tr2, ?_, ?_, ?_, ?_⟩
        · simp [insert_fronts, page_to_fronts, assert_state, h, set_state, hu]
        · rfl
        · simp [List.countP_cons, hmode, Event.isModeSelect]
        · rfl
  · intro h
    rcases hu : upload_and_insert_images
        { d with state := States.inserting_backs, action := "" }
        order.backs envB with ⟨r, tr2⟩
    have hmode : tr2.countP Event.isModeSelect = 0 := by
      have h0 := sequencerLoop_no_mode envB order.backs.cards.length
        { d with state := States.inserting_backs, action := "" } 0
        order.backs.queue
      have hu2 : sequencerLoop envB
          { d with state := States.inserting_backs, action := "" } 0
          order.backs.cards.length order.backs.queue = (r, tr2) := hu
      rw [hu2] at h0
      exact h0
    cases cb with
    | false =>
        cases r with
        | ok d2 =>
            refine ⟨[Event.waited, Event.js JsCommand.setNextStep, Event.waited,
                Event.waited, Event.js JsCommand.setNextStep,
                Event.switchFrame "sysifm_loginFrame"],
              Event.switchDefault :: Event.setState States.inserting_backs ""
                :: (tr2 ++ [Event.setState States.paging_to_review ""]),
              ?_, ?_, ?_, ?_⟩
            · simp [insert_backs, page_to_backs, next_step, assert_state, h,
                set_state, hu]
            · rfl
            · simp [List.countP_cons, List.countP_append, hmode,
                Event.isModeSelect]
            · rfl
        | err e dx =>
            refine ⟨[Event.waited, Event.js JsCommand.setNextStep, Event.waited,
                Event.waited, Event.js JsCommand.setNextStep,
                Event.switchFrame "sysifm_loginFrame"],
              Event.switchDefault :: Event.setState States.inserting_backs ""
                :: tr2, ?_, ?_, ?_, ?_⟩
            · simp [insert_backs, page_to_backs, next_step, assert_state, h,
                set_state, hu]
            · rfl
            · simp [List.countP_cons, hmode, Event.isModeSelect]
            · rfl
        | blocked =>
            refine ⟨[Event.waited, Event.js JsCommand.setNextStep, Event.waited,
                Event.waited, Event.js JsCommand.setNextStep,
                Event.switchFrame "sysifm_loginFrame"],
              Event.switchDefault :: Event.setState States.inserting_backs ""
                :: tr2, ?_, ?_, ?_, ?_⟩
            · simp [insert_backs, page_to_backs, next_step, assert_state, h,
                set_state, hu]
            · rfl
            · simp [List.countP_cons, hmode, Event.isModeSelect]
            · rfl
    | true =>
        cases r with
        | ok d2 =>
            refine ⟨[Event.waited, Event.js JsCommand.setNextStep, Event.waited,
                Event.clickCloseBtn, Event.waited, Event.js JsCommand.setNextStep,
                Event.switchFrame "sysifm_loginFrame"],
              Event.switchDefault :: Event.setState States.inserting_backs ""
                :: (tr2 ++ [Event.setState States.paging_to_review ""]),
              ?_, ?_, ?_, ?_⟩
            · simp [insert_backs, page_to_backs, next_step, assert_state, h,
                set_state, hu]
            · rfl
            · simp [List.countP_cons, List.countP_append, hmode,
                Event.isModeSelect]
            · rfl
        | err e dx =>
            refine ⟨[Event.waited, Event.js JsCommand.setNextStep, Event.waited,
                Event.clickCloseBtn, Event.waited, Event.js JsCommand.setNextStep,
                Event.switchFrame "sysifm_loginFrame"],
              Event.switchDefault :: Event.setState States.inserting_backs ""
                :: tr2, ?_, ?_, ?_, ?_⟩
            · simp [insert_backs, page_to_backs, next_step, assert_state, h,
                set_state, hu]
            · rfl
            · simp [List.countP_cons, hmode, Event.isModeSelect]
            · rfl
        | blocked =>
            refine ⟨[Event.waited, Event.js JsCommand.setNextStep, Event.waited,
                Event.clickCloseBtn, Event.waited, Event.js JsCommand.setNextStep,
                Event.switchFrame "sysifm_loginFrame"],
              Event.switchDefault :: Event.setState States.inserting_backs ""
                :: tr2, ?_, ?_, ?_, ?_⟩
            · simp [insert_backs, page_to_backs, next_step, assert_state, h,
                set_state, hu]
            · rfl
            · simp [List.countP_cons, hmode, Event.isModeSelect]
            · rfl

/-- Witness for the amended C2 on empty faces. -/
theorem C2_mode_selection_amended_witness :
    (∃ pre post, (insert_fronts ⟨States.paging_to_fronts, ""⟩
        ⟨⟨"S30", 1, 18, false⟩, ⟨[], []⟩, ⟨[], []⟩⟩
        (fun _ => ⟨0, 0, 0, []⟩)).2
          = pre ++ Event.js JsCommand.setModeDifferent :: post
        ∧ pre.countP Event.isModeSelect = 0
        ∧ post.countP Event.isModeSelect = 0
        ∧ pre.countP Event.isSubmit = 0)
    ∧ (∃ pre post, (insert_backs ⟨States.paging_to_backs, ""⟩
        ⟨⟨"S30", 1, 18, false⟩, ⟨[], []⟩, ⟨[], []⟩⟩
        (fun _ => ⟨0, 0, 0, []⟩) false).2
          = pre ++ Event.js (if
              (⟨⟨"S30", 1, 18, false⟩, ⟨[], []⟩, ⟨[], []⟩⟩ :
                CardOrder).backs.cards.length = 1
              then JsCommand.setModeSame
              else JsCommand.setModeDifferent) :: post
        ∧ pre.countP Event.isModeSelect = 0
        ∧ post.countP Event.isModeSelect = 0
        ∧ pre.countP Event.isSubmit = 0) :=
  ⟨(C2_mode_selection_amended ⟨States.paging_to_fronts, ""⟩
      ⟨⟨"S30", 1, 18, false⟩, ⟨[], []⟩, ⟨[], []⟩⟩
      (fun _ => ⟨0, 0, 0, []⟩) (fun _ => ⟨0, 0, 0, []⟩) false).1 rfl,
   (C2_mode_selection_amended ⟨States.paging_to_backs, ""⟩
      ⟨⟨"S30", 1, 18, false⟩, ⟨[], []⟩, ⟨[], []⟩⟩
      (fun _ => ⟨0, 0, 0, []⟩) (fun _ => ⟨0, 0, 0, []⟩) false).2 rfl⟩

theorem assignedStates_append (a b : List Event) :
    assignedStates (a ++ b) = assignedStates a ++ assignedStates b := by
  simp [assignedStates]

theorem mem_assignedStates {tr : List Event} {s : States} :
    s ∈ assignedStates tr ↔ ∃ a, Event.setState s a ∈ tr := by
  constructor
  · intro hs
    rw [assignedStates, List.mem_filterMap] at hs
    rcases hs with ⟨e, he, hfe⟩
    cases e <;> try (exact Option.noConfusion hfe)
    rename_i st x
    have hst : st = s := Option.some.inj hfe
    subst hst
    exact ⟨x, he⟩
  · rintro ⟨a, ha⟩
    rw [assignedStates, List.mem_filterMap]
    exact ⟨Event.setState s a, ha, rfl⟩

theorem chain_le_cons_const (c : States) (m l : List States)
    (hm : ∀ x ∈ m, x = c)
    (hl : List.Chain' (fun a b : States => a.idx ≤ b.idx) (c :: l)) :
    List.Chain' (fun a b : States => a.idx ≤ b.idx) (c :: (m ++ l)) := by
  induction m with
  | nil => exact hl
  | cons x xs ih =>
      have hx : x = c := hm x (List.mem_cons_self _ _)
      subst hx
      have hrec := ih (fun y hy => hm y (List.mem_cons_of_mem _ hy))
      exact List.chain'_cons.mpr ⟨Nat.le_refl _, hrec⟩

theorem define_order_ok (d : AutofillDriver) (o : CardOrder)
    (d' : AutofillDriver) (h : (define_order d o).1 = RunResult.ok d') :
    d.state = States.defining_order
    ∧ d' = { d with state := States.paging_to_fronts, action := "" }
    ∧ (define_order d o).2
        = Event.selectStock o.details.stock
          :: Event.selectBracket o.details.bracket
          :: ((if o.details.foil then [Event.selectFoil] else [])
              ++ [Event.setState States.paging_to_fronts ""]) := by
  by_cases hs : d.state = States.defining_order
  · have hred : define_order d o
        = (RunResult.ok { d with state := States.paging_to_fronts, action := "" },
           Event.selectStock o.details.stock
             :: Event.selectBracket o.details.bracket
             :: ((if o.details.foil then [Event.selectFoil] else [])
                 ++ [Event.setState States.paging_to_fronts ""])) := by
      simp [define_order, assert_state, hs, set_state]
    rw [hred] at h
    simp only [RunResult.ok.injEq] at h
    exact ⟨hs, h.symm, by rw [hred]⟩
  · exfalso
    simp [define_order, assert_state, hs] at h

theorem insert_fronts_ok (d : AutofillDriver) (o : CardOrder)
    (e : Nat → UploadEnv) (d' : AutofillDriver)
    (h : (insert_fronts d o e).1 = RunResult.ok d') :
    d.state = States.paging_to_fronts
    ∧ ∃ d2 tr2,
      upload_and_insert_images
          { d with state := States.inserting_fronts, action := "" } o.fronts e
        = (RunResult.ok d2, tr2)
      ∧ d' = { d2 with state := States.paging_to_backs, action := "" }
      ∧ (insert_fronts d o e).2
          = [Event.js JsCommand.doPersonalize,
             Event.switchFrame "sysifm_loginFrame",
             Event.js (JsCommand.setCardNumber o.details.quantity),
             Event.js JsCommand.setModeDifferent,
             Event.switchDefault,
             Event.setState States.inserting_fronts ""]
            ++ tr2 ++ [Event.setState States.paging_to_backs ""] := by
  by_cases hs : d.state = States.paging_to_fronts
  · rcases hu : upload_and_insert_images
        { d with state := States.inserting_fronts, action := "" } o.fronts e
      with ⟨r, tr2⟩
    cases r with
    | ok d2 =>
        have hred : insert_fronts d o e
            = (RunResult.ok
                { d2 with state := States.paging_to_backs, action := "" },
               [Event.js JsCommand.doPersonalize,
                Event.switchFrame "sysifm_loginFrame",
                Event.js (JsCommand.setCardNumber o.details.quantity),
                Event.js JsCommand.setModeDifferent,
                Event.switchDefault,
                Event.setState States.inserting_fronts ""]
                ++ tr2 ++ [Event.setState States.paging_to_backs ""]) := by
          simp [insert_fronts, page_to_fronts, assert_state, hs, set_state, hu]
        rw [hred] at h
        simp only [RunResult.ok.injEq] at h
        exact ⟨hs, d2, tr2, rfl, h.symm, by rw [hred]⟩
    | err ex dx =>
        exfalso
        simp [insert_fronts, page_to_fronts, assert_state, hs, set_state, hu] at h
    | blocked =>
        exfalso
        simp [insert_fronts, page_to_fronts, assert_state, hs, set_state, hu] at h
  · exfalso
    simp [insert_fronts, page_to_fronts, assert_state, hs] at h

theorem insert_backs_ok (d : AutofillDriver) (o : CardOrder)
    (e : Nat → UploadEnv) (cb : Bool) (d' : AutofillDriver)
    (h : (insert_backs d o e cb).1 = RunResult.ok d') :
    d.state = States.paging_to_backs
    ∧ ∃ d2 tr2,
      upload_and_insert_images
          { d with state := States.inserting_backs, action := "" } o.backs e
        = (RunResult.ok d2, tr2)
      ∧ d' = { d2 with state := States.paging_to_review, action := "" }
      ∧ (insert_backs d o e cb).2
          = backsPagingEvents o cb ++ tr2
            ++ [Event.setState States.paging_to_review ""] := by
  by_cases hs : d.state = States.paging_to_backs
  · rcases hu : upload_and_insert_images
        { d with state := States.inserting_backs, action := "" } o.backs e
      with ⟨r, tr2⟩
    cases r with
    | ok d2 =>
        have hred : insert_backs d o e cb
            = (RunResult.ok
                { d2 with state := States.paging_to_review, action := "" },
               backsPagingEvents o cb ++ tr2
                 ++ [Event.setState States.paging_to_review ""]) := by
          simp [insert_backs, page_to_backs, backsPagingEvents, next_step,
            assert_state, hs, set_state, hu]
        rw [hred] at h
        simp only [RunResult.ok.injEq] at h
        exact ⟨hs, d2, tr2, rfl, h.symm, by rw [hred]⟩
    | err ex dx =>
        exfalso
        simp [insert_backs, page_to_backs, assert_state, hs, set_state, hu] at h
    | blocked =>
        exfalso
        simp [insert_backs, page_to_backs, assert_state, hs, set_state, hu] at h
  · exfalso
    simp [insert_backs, page_to_backs, assert_state, hs] at h

theorem assignedStates_backsPagingEvents (o : CardOrder) (cb : Bool) :
    assignedStates (backsPagingEvents o cb) = [States.inserting_backs] := by
  cases cb <;> simp [backsPagingEvents, next_step, assignedStates]

theorem sequencer_assigned (e : Nat → UploadEnv) (d : AutofillDriver)
    (coll : CardImageCollection) (r : RunResult) (tr : List Event)
    (hu : upload_and_insert_images d coll e = (r, tr)) :
    ∀ s ∈ assignedStates tr, s = d.state := by
  intro s hs
  rcases mem_assignedStates.mp hs with ⟨a, ha⟩
  have hu2 : sequencerLoop e d 0 coll.cards.length coll.queue = (r, tr) := hu
  have := sequencerLoop_setState e coll.cards.length d 0 coll.queue s a
  rw [hu2] at this
  exact this ha

/-- C9: across a complete successful run the Workflow State only ever moves
forward (never backward) through the total order on `States`: the sequence
of state assignments, starting from the initial `initialising` value, is a
chain under the order-position comparison. Moreover each public operation
that returns normally leaves the state equal to its declared exit state as
its final act: `define_order` ends on `paging_to_fronts`, `insert_fronts`
on `paging_to_backs`, `insert_backs` on `paging_to_review`, each as the
last event of its trace. -/
theorem C9_monotone_state_progression (order : CardOrder)
    (envF envB : Nat → UploadEnv) (cb : Bool) (dF : AutofillDriver)
    (tr : List Event)
    (h : runWorkflow order envF envB cb = (RunResult.ok dF, tr)) :
    List.Chain' (fun a b : States => a.idx ≤ b.idx)
      (initialDriver.state :: assignedStates tr)
    ∧ dF.state = States.paging_to_review
    ∧ (∃ pre, tr = pre ++ [Event.setState States.paging_to_review ""])
    ∧ (∀ (d : AutofillDriver) (o : CardOrder) (d' : AutofillDriver),
        (define_order d o).1 = RunResult.ok d' →
        d'.state = States.paging_to_fronts
        ∧ ∃ pre, (define_order d o).2
            = pre ++ [Event.setState States.paging_to_fronts ""])
    ∧ (∀ (d : AutofillDriver) (o : CardOrder) (e : Nat → UploadEnv)
        (d' : AutofillDriver),
        (insert_fronts d o e).1 = RunResult.ok d' →
        d'.state = States.paging_to_backs
        ∧ ∃ pre, (insert_fronts d o e).2
            = pre ++ [Event.setState States.paging_to_backs ""])
    ∧ (∀ (d : AutofillDriver) (o : CardOrder) (e : Nat → UploadEnv)
        (b : Bool) (d' : AutofillDriver),
        (insert_backs d o e b).1 = RunResult.ok d' →
        d'.state = States.paging_to_review
        ∧ ∃ pre, (insert_backs d o e b).2
            = pre ++ [Event.setState States.paging_to_review ""]) := by
  have hdefOp : ∀ (d : AutofillDriver) (o : CardOrder) (d' : AutofillDriver),
      (define_order d o).1 = RunResult.ok d' →
      d'.state = States.paging_to_fronts
      ∧ ∃ pre, (define_order d o).2
          = pre ++ [Event.setState States.paging_to_fronts ""] := by
    intro d o d' hok
    obtain ⟨-, hd', htr⟩ := define_order_ok d o d' hok
    refine ⟨by rw [hd'], ?_⟩
    refine ⟨Event.selectStock o.details.stock
      :: Event.selectBracket o.details.bracket
      :: (if o.details.foil then [Event.selectFoil] else []), ?_⟩
    rw [htr]
    simp
  have hifOp : ∀ (d : AutofillDriver) (o : CardOrder) (e : Nat → UploadEnv)
      (d' : AutofillDriver),
      (insert_fronts d o e).1 = RunResult.ok d' →
      d'.state = States.paging_to_backs
      ∧ ∃ pre, (insert_fronts d o e).2
          = pre ++ [Event.setState States.paging_to_backs ""] := by
    intro d o e d' hok
    obtain ⟨-, d2, tr2, -, hd', htr⟩ := insert_fronts_ok d o e d' hok
    refine ⟨by rw [hd'], ?_⟩
    refine ⟨[Event.js JsCommand.doPersonalize,
        Event.switchFrame "sysifm_loginFrame",
        Event.js (JsCommand.setCardNumber o.details.quantity),
        Event.js JsCommand.setModeDifferent,
        Event.switchDefault,
        Event.setState States.inserting_fronts ""] ++ tr2, ?_⟩
    rw [htr]
  have hibOp : ∀ (d : AutofillDriver) (o : CardOrder) (e : Nat → UploadEnv)
      (b : Bool) (d' : AutofillDriver),
      (insert_backs d o e b).1 = RunResult.ok d' →
      d'.state = States.paging_to_review
      ∧ ∃ pre, (insert_backs d o e b).2
          = pre ++ [Event.setState States.paging_to_review ""] := by
    intro d o e b d' hok
    obtain ⟨-, d2, tr2, -, hd', htr⟩ := insert_backs_ok d o e b d' hok
    refine ⟨by rw [hd'], ?_⟩
    refine ⟨backsPagingEvents o b ++ tr2, ?_⟩
    rw [htr]
  simp only [runWorkflow, attrs_post_init, initialDriver, set_state] at h
  rcases h1 : define_order ⟨States.defining_order, ""⟩ order with ⟨r1, t1⟩
  rw [h1] at h
  cases r1 with
  | err e1 dx1 => simp at h
  | blocked => simp at h
  | ok d1 =>
      simp only [] at h
      rcases h2 : insert_fronts d1 order envF with ⟨r2, t2⟩
      rw [h2] at h
      cases r2 with
      | err e2 dx2 => simp at h
      | blocked => simp at h
      | ok d2 =>
          simp only [] at h
          rcases h3 : insert_backs d2 order envB cb with ⟨r3, t3⟩
          rw [h3] at h
          simp only [Prod.mk.injEq] at h
          obtain ⟨hr3, htr⟩ := h
          obtain ⟨-, hd1val, ht1⟩ := define_order_ok _ order d1 (by rw [h1])
          subst hd1val
          obtain ⟨-, d2', tr2', hseqF, hd2val, ht2⟩ :=
            insert_fronts_ok _ order envF d2 (by rw [h2])
          subst hd2val
          obtain ⟨-, d3', tr3', hseqB, hdFval, ht3⟩ :=
            insert_backs_ok _ order envB cb dF (by rw [h3]; exact hr3)
          have hm1 : ∀ s ∈ assignedStates tr2', s = States.inserting_fronts := by
            intro s hs
            exact sequencer_assigned envF _ order.fronts _ _ hseqF s hs
          have hm2 : ∀ s ∈ assignedStates tr3', s = States.inserting_backs := by
            intro s hs
            exact sequencer_assigned envB _ order.backs _ _ hseqB s hs
          have ht1' : t1
              = Event.selectStock order.details.stock
                :: Event.selectBracket order.details.bracket
                :: ((if order.details.foil then [Event.selectFoil] else [])
                    ++ [Event.setState States.paging_to_fronts ""]) := by
            rw [← ht1, h1]
          have ht2' : t2
              = [Event.js JsCommand.doPersonalize,
                 Event.switchFrame "sysifm_loginFrame",
                 Event.js (JsCommand.setCardNumber order.details.quantity),
                 Event.js JsCommand.setModeDifferent,
                 Event.switchDefault,
                 Event.setState States.inserting_fronts ""]
                ++ tr2' ++ [Event.setState States.paging_to_backs ""] := by
            rw [← ht2, h2]
          have ht3' : t3
              = backsPagingEvents order cb ++ tr3'
                ++ [Event.setState States.paging_to_review ""] := by
            rw [← ht3, h3]
          have ha1 : assignedStates t1 = [States.paging_to_fronts] := by
            rw [ht1']
            cases hfl : order.details.foil <;> simp [assignedStates]
          have ha2 : assignedStates t2
              = States.inserting_fronts
                :: (assignedStates tr2' ++ [States.paging_to_backs]) := by
            rw [ht2', assignedStates_append, assignedStates_append]
            simp [assignedStates]
          have ha3 : assignedStates t3
              = States.inserting_backs
                :: (assignedStates tr3' ++ [States.paging_to_review]) := by
            rw [ht3', assignedStates_append, assignedStates_append,
              assignedStates_backsPagingEvents]
            simp [assignedStates]
          refine ⟨?_, ?_, ?_, hdefOp, hifOp, hibOp⟩
          · subst htr
            show List.Chain' _ (States.initialising :: _)
            simp only [assignedStates, List.filterMap_cons]
            show List.Chain' _ (States.initialising :: States.defining_order
              :: assignedStates (t1 ++ t2 ++ t3))
            rw [assignedStates_append, assignedStates_append, ha1, ha2, ha3]
            simp only [List.singleton_append, List.cons_append,
              List.append_assoc, List.nil_append]
            refine List.chain'_cons.mpr ⟨by decide, ?_⟩
            refine List.chain'_cons.mpr ⟨by decide, ?_⟩
            refine List.chain'_cons.mpr ⟨by decide, ?_⟩
            refine chain_le_cons_const States.inserting_fronts _ _ hm1 ?_
            refine List.chain'_cons.mpr ⟨by decide, ?_⟩
            refine List.chain'_cons.mpr ⟨by decide, ?_⟩
            refine chain_le_cons_const States.inserting_backs _ _ hm2 ?_
            exact List.chain'_cons.mpr ⟨by decide, List.chain'_singleton _⟩
          · rw [hdFval]
          · subst htr
            refine ⟨Event.setState States.defining_order ""
              :: (t1 ++ t2 ++ (backsPagingEvents order cb ++ tr3')), ?_⟩
            rw [ht3']
            simp

/-- Witness for C9: a complete concrete run with one front and one back
descriptor. -/
theorem C9_monotone_state_progression_witness :
    List.Chain' (fun a b : States => a.idx ≤ b.idx)
      (initialDriver.state
        :: assignedStates (runWorkflow
            ⟨⟨"S30", 1, 18, false⟩,
             ⟨[⟨"f1", "f1.png", [0], true, true⟩],
              [⟨"f1", "f1.png", [0], true, true⟩]⟩,
             ⟨[⟨"b1", "b1.png", [1], true, true⟩],
              [⟨"b1", "b1.png", [1], true, true⟩]⟩⟩
            (fun _ => ⟨2, 1, 0, [PollOutcome.elems 3 "pid3"]⟩)
            (fun _ => ⟨2, 1, 0, [PollOutcome.elems 3 "pid4"]⟩) true).2)
    ∧ (⟨States.paging_to_review, ""⟩ : AutofillDriver).state
        = States.paging_to_review
    ∧ (∃ pre, (runWorkflow
            ⟨⟨"S30", 1, 18, false⟩,
             ⟨[⟨"f1", "f1.png", [0], true, true⟩],
              [⟨"f1", "f1.png", [0], true, true⟩]⟩,
             ⟨[⟨"b1", "b1.png", [1], true, true⟩],
              [⟨"b1", "b1.png", [1], true, true⟩]⟩⟩
            (fun _ => ⟨2, 1, 0, [PollOutcome.elems 3 "pid3"]⟩)
            (fun _ => ⟨2, 1, 0, [PollOutcome.elems 3 "pid4"]⟩) true).2
          = pre ++ [Event.setState States.paging_to_review ""]) :=
  have hfull := C9_monotone_state_progression
    ⟨⟨"S30", 1, 18, false⟩,
     ⟨[⟨"f1", "f1.png", [0], true, true⟩],
      [⟨"f1", "f1.png", [0], true, true⟩]⟩,
     ⟨[⟨"b1", "b1.png", [1], true, true⟩],
      [⟨"b1", "b1.png", [1], true, true⟩]⟩⟩
    (fun _ => ⟨2, 1, 0, [PollOutcome.elems 3 "pid3"]⟩)
    (fun _ => ⟨2, 1, 0, [PollOutcome.elems 3 "pid4"]⟩) true
    ⟨States.paging_to_review, ""⟩
    (runWorkflow
      ⟨⟨"S30", 1, 18, false⟩,
       ⟨[⟨"f1", "f1.png", [0], true, true⟩],
        [⟨"f1", "f1.png", [0], true, true⟩]⟩,
       ⟨[⟨"b1", "b1.png", [1], true, true⟩],
        [⟨"b1", "b1.png", [1], true, true⟩]⟩⟩
      (fun _ => ⟨2, 1, 0, [PollOutcome.elems 3 "pid3"]⟩)
      (fun _ => ⟨2, 1, 0, [PollOutcome.elems 3 "pid4"]⟩) true).2
    rfl
  ⟨hfull.1, hfull.2.1, hfull.2.2.1⟩

end Autofill
